import Mathlib

/-!
Verification development for the `mcb_api` repository (million-checkboxes API).

Shallow embedding of the core components referenced by the spec:
the error-classification layer (`internal/error`), the in-memory checkbox
cache (`internal/memorystore`), the persistence gateway (`internal/dbservice`),
the queue consumer (`internal/workers/backend/backendworker.go`) and the
backend poll loop (`cmd/backend/main.go`).

Effectful Go code is embedded as pure functions over explicit state, with
oracle structures standing for the outcomes of external calls (database,
queue transport, JSON unmarshalling). A Go `panic` is a distinguished
outcome constructor, separate from returned `APIError` values.
-/

set_option maxHeartbeats 1000000
set_option linter.unusedVariables false

namespace MCB

/-! ### Error model (`internal/error/constants.go`, `internal/error/types.go`) -/

def ErrValidationFailed : String := "VALIDATION_FAILED"

def ErrMissingParameter : String := "MISSING_PARAMETER"

def ErrInvalidParameter : String := "INVALID_PARAMETER"

def ErrParameterOutOfRange : String := "PARAMETER_OUT_OF_RANGE"

def ErrInvalidUUID : String := "INVALID_UUID"

def ErrInvalidCheckboxNumber : String := "INVALID_CHECKBOX_NUMBER"

def ErrInternalServer : String := "INTERNAL_SERVER_ERROR"

def ErrServiceUnavailable : String := "SERVICE_UNAVAILABLE"

def ErrTimeout : String := "TIMEOUT"

def ErrQueueUnavailable : String := "QUEUE_UNAVAILABLE"

def ErrQueueTimeout : String := "QUEUE_TIMEOUT"

def ErrQueueFull : String := "QUEUE_FULL"

def ErrMessageTooLarge : String := "MESSAGE_TOO_LARGE"

def ErrDatabaseError : String := "DATABASE_ERROR"

def ErrDatabaseTimeout : String := "DATABASE_TIMEOUT"

def ErrDatabaseConnection : String := "DATABASE_CONNECTION_ERROR"

def ErrRecordNotFound : String := "RECORD_NOT_FOUND"

def ErrDuplicateRecord : String := "DUPLICATE_RECORD"

def ErrMemoryStoreError : String := "MEMORY_STORE_ERROR"

def ErrMemoryStoreFull : String := "MEMORY_STORE_FULL"

def ErrUnauthorized : String := "UNAUTHORIZED"

def ErrForbidden : String := "FORBIDDEN"

def ErrTokenExpired : String := "TOKEN_EXPIRED"

def ErrInvalidToken : String := "INVALID_TOKEN"

/-- `ErrorCodeToStatus` from `constants.go`, as an association list
(error code, HTTP status). -/
def ErrorCodeToStatus : List (String × Nat) :=
  [ (ErrValidationFailed, 400)
  , (ErrMissingParameter, 400)
  , (ErrInvalidParameter, 400)
  , (ErrParameterOutOfRange, 400)
  , (ErrInvalidUUID, 400)
  , (ErrInvalidCheckboxNumber, 400)
  , (ErrInternalServer, 500)
  , (ErrDatabaseError, 500)
  , (ErrDatabaseTimeout, 500)
  , (ErrDatabaseConnection, 500)
  , (ErrMemoryStoreError, 500)
  , (ErrServiceUnavailable, 503)
  , (ErrQueueUnavailable, 503)
  , (ErrQueueTimeout, 503)
  , (ErrQueueFull, 503)
  , (ErrMemoryStoreFull, 503)
  , (ErrTimeout, 408)
  , (ErrMessageTooLarge, 400)
  , (ErrRecordNotFound, 404)
  , (ErrDuplicateRecord, 409)
  , (ErrUnauthorized, 401)
  , (ErrForbidden, 403)
  , (ErrTokenExpired, 401)
  , (ErrInvalidToken, 401) ]

/-- `GetStatusCode`: look up the HTTP status for an error code,
defaulting to 500 (`http.StatusInternalServerError`). -/
def GetStatusCode (errorCode : String) : Nat :=
  match ErrorCodeToStatus.lookup errorCode with
  | some status => status
  | none => 500

/-- `BaseError` from `types.go`. The `Cause`, context and stack-trace fields
are omitted: no claim depends on them, and error classification in this
codebase is by `Code` (and the derived `Status`) only. -/
structure BaseError where
  code : String
  message : String
  status : Nat
  deriving DecidableEq

/-- `NewAPIErrorFromCode` from `types.go`. -/
def NewAPIErrorFromCode (code : String) (message : String) : BaseError :=
  { code := code, message := message, status := GetStatusCode code }

/-- `WrapWithCodeFromConstants` from `types.go`, specialised to a present
(non-nil) cause; `causeMsg` is the wrapped error's text, which does not
influence the resulting code or status. -/
def WrapWithCodeFromConstants (causeMsg : String) (code : String) (message : String) : BaseError :=
  { code := code, message := message, status := GetStatusCode code }

/-- `InternalError` from `types.go`. -/
def InternalError (message : String) : BaseError :=
  NewAPIErrorFromCode ErrInternalServer message

/-- `ValidationError` from `types.go`. -/
def ValidationError (message : String) : BaseError :=
  NewAPIErrorFromCode ErrValidationFailed message

/-- `DatabaseError` from `types.go`. -/
def DatabaseError (message : String) : BaseError :=
  NewAPIErrorFromCode ErrDatabaseError message

/-- The validation (InvalidArgument-class) error codes: the block of
`constants.go` commented "Validation errors", all mapped to HTTP 400. -/
def validationErrorCodes : List String :=
  [ ErrValidationFailed, ErrMissingParameter, ErrInvalidParameter
  , ErrParameterOutOfRange, ErrInvalidUUID, ErrInvalidCheckboxNumber ]

/-- Outcome of running a piece of Go code: it can panic, return an
`APIError`, or complete normally. -/
inductive GoOutcome (α : Type) where
  | panicked (msg : String)
  | err (e : BaseError)
  | ok (a : α)
  deriving DecidableEq

/-- Whether an outcome is a returned error (neither a panic nor success). -/
def GoOutcome.isMemErr {α : Type} : GoOutcome α → Bool
  | .err _ => true
  | _ => false

/-- Whether an outcome is a returned `APIError` carrying the
`INTERNAL_SERVER_ERROR` code (the result of `apierror.InternalError`). -/
def GoOutcome.isInternalErrorOutcome {α : Type} : GoOutcome α → Bool
  | .err e => e.code == ErrInternalServer
  | _ => false

/-- Whether an outcome is a returned validation-class (InvalidArgument-class)
error, i.e. an `APIError` whose code is one of the validation codes. -/
def GoOutcome.isValidationErrorOutcome {α : Type} : GoOutcome α → Bool
  | .err e => validationErrorCodes.contains e.code
  | _ => false

/-! ### In-memory cache (`internal/memorystore`, src/unnamed/part_005) -/

namespace memorystore

/-- The package-level mutable state of the `memorystore` package:
`var store []bool`, `var storeLen = 0`, `var initialized = false`.
The mutex `mu` has no representation in this sequential embedding. -/
structure MemoryStore where
  store : List Bool
  storeLen : Int
  initialized : Bool

/-- The Go zero-value state of the package at process start:
nil slice, `storeLen = 0`, `initialized = false`. -/
def initialMemoryStore : MemoryStore :=
  { store := [], storeLen := 0, initialized := false }

/-- Go slice read `l[i]` with an `int` index: panics when the index is
negative or not below the slice length. -/
def sliceGet (l : List Bool) (i : Int) : GoOutcome Bool :=
  if 0 ≤ i then
    match l[i.toNat]? with
    | some b => .ok b
    | none => .panicked "index out of range"
  else .panicked "index out of range"

/-- Go slice write `l[i] = v` with an `int` index: panics when the index is
negative or not below the slice length. -/
def sliceSet (l : List Bool) (i : Int) (v : Bool) : GoOutcome (List Bool) :=
  if 0 ≤ i ∧ i.toNat < l.length then .ok (l.set i.toNat v)
  else .panicked "index out of range"

/-- `Init` from part_005: panics when already initialized, otherwise
allocates `make([]bool, 1000000)` and records its length. -/
def Init (s : MemoryStore) : GoOutcome MemoryStore :=
  if s.initialized then .panicked "MemoryStore Init was called more than once"
  else
    let store := List.replicate 1000000 false
    .ok { store := store, storeLen := (store.length : Int), initialized := true }

/-- `checkboxNbrValid` from part_005. -/
def checkboxNbrValid (s : MemoryStore) (checkboxNbr : Int) : Bool :=
  checkboxNbr ≥ 0 && checkboxNbr < s.storeLen

/-- `GetCheckboxStatus` from part_005 (the cache read). -/
def GetCheckboxStatus (s : MemoryStore) (checkboxNbr : Int) : GoOutcome Bool :=
  if !(checkboxNbrValid s checkboxNbr) then
    .err (InternalError s!"invalid checkbox number for call GetCheckboxStatus({checkboxNbr}")
  else
    sliceGet s.store checkboxNbr

/-- `DoCheck` from part_005 (the cache write): on success returns the
updated package state. -/
def DoCheck (s : MemoryStore) (checkboxNbr : Int) (checked : Bool) : GoOutcome MemoryStore :=
  if !(checkboxNbrValid s checkboxNbr) then
    .err (InternalError s!"invalid checkbox number for call DoCheck({checkboxNbr}, {checked})")
  else
    match sliceSet s.store checkboxNbr checked with
    | .ok l => .ok { s with store := l }
    | .panicked m => .panicked m
    | .err e => .err e

/-- The state after a `DoCheck` call, whether or not it succeeded: a failed
call (validation error) leaves the package state unchanged. A panicking
call has no next state; it is mapped to the unchanged state here only so
that sequences of writes can be expressed as folds (the claims using this
function only ever reach non-panicking calls). -/
def doCheckState (s : MemoryStore) (checkboxNbr : Int) (checked : Bool) : MemoryStore :=
  match DoCheck s checkboxNbr checked with
  | .ok s' => s'
  | _ => s

/-- A sequence of `DoCheck` calls applied in order. -/
def applyWrites (s : MemoryStore) (ws : List (Int × Bool)) : MemoryStore :=
  ws.foldl (fun t p => doCheckState t p.1 p.2) s

/-- The package state right after a successful `Init` on the zero-value
state: a freshly allocated all-false array of length 1,000,000. -/
def initializedStore : MemoryStore :=
  { store := List.replicate 1000000 false, storeLen := 1000000, initialized := true }

end memorystore

/-! ### Persistence gateway (`internal/dbservice`, src/unnamed/part_003) -/

namespace dbservice

/-- The `CHECKBOX_DETAILS_T` row for one checkbox:
`LAST_UPDATED_BY`, `LAST_REQUEST_ID`, `LAST_UPDATED_DATE`. -/
structure CheckboxDetailsRow where
  lastUpdatedBy : String
  lastRequestId : String
  lastUpdatedDate : Nat

/-- The durable store visible to `UpdateCheckbox`: the committed contents of
`MCB.CHECKBOX_T` (checked state by checkbox number) and
`MCB.CHECKBOX_DETAILS_T` (details row by checkbox number). -/
structure CheckboxDb where
  stateRows : Int → Bool
  detailsRows : Int → CheckboxDetailsRow

/-- An open transaction: the writes executed so far, pending on the
committed store. `BeginTx` opens an empty transaction; `ExecTx` adds a
write; `CommitTx` applies the pending writes atomically; `RollbackTx`
discards them (standard SQL transaction semantics of the pgx wrappers in
`postgreservice.go`). -/
structure Tx where
  pending : CheckboxDb → CheckboxDb

/-- `BeginTx`: a fresh transaction with no pending writes. -/
def BeginTx : Tx := { pending := id }

/-- The effect of `UPDATE MCB.CHECKBOX_T SET CHECKED_STATE = $1 WHERE
CHECKBOX_NBR = $2` on a committed store. -/
def updateStateRow (db : CheckboxDb) (checked : Bool) (checkboxNbr : Int) : CheckboxDb :=
  { db with stateRows := fun m => if m = checkboxNbr then checked else db.stateRows m }

/-- The effect of `UPDATE MCB.CHECKBOX_DETAILS_T SET LAST_UPDATED_BY = $1,
LAST_REQUEST_ID = $2, LAST_UPDATED_DATE = $3 WHERE CHECKBOX_NBR = $4`. -/
def updateDetailsRow (db : CheckboxDb) (userUuid : String) (requestUuid : String)
    (now : Nat) (checkboxNbr : Int) : CheckboxDb :=
  { db with detailsRows := fun m =>
      if m = checkboxNbr then
        { lastUpdatedBy := userUuid, lastRequestId := requestUuid, lastUpdatedDate := now }
      else db.detailsRows m }

/-- `ExecTx` of the `CHECKBOX_T` update: records the write in the
transaction. -/
def execTxState (tx : Tx) (checked : Bool) (checkboxNbr : Int) : Tx :=
  { pending := fun db => updateStateRow (tx.pending db) checked checkboxNbr }

/-- `ExecTx` of the `CHECKBOX_DETAILS_T` update: records the write in the
transaction. -/
def execTxDetails (tx : Tx) (userUuid : String) (requestUuid : String)
    (now : Nat) (checkboxNbr : Int) : Tx :=
  { pending := fun db => updateDetailsRow (tx.pending db) userUuid requestUuid now checkboxNbr }

/-- `CommitTx`: atomically applies the transaction's pending writes to the
committed store. -/
def CommitTx (db : CheckboxDb) (tx : Tx) : CheckboxDb := tx.pending db

/-- `RollbackTx`: discards the transaction; the committed store is
untouched. -/
def RollbackTx (db : CheckboxDb) (tx : Tx) : CheckboxDb := db

/-- Oracle for the fallible database steps inside `UpdateCheckbox`:
`some msg` means the corresponding call returned that error. -/
structure TxOracle where
  beginErr : Option String
  execStateErr : Option String
  execDetailsErr : Option String
  commitErr : Option String
  rollbackErr : Option String

/-- `UpdateCheckbox` from part_003: begin a transaction, update the
`CHECKBOX_T` row, update the `CHECKBOX_DETAILS_T` row, commit. On any
failure the deferred cleanup rolls the transaction back (a rollback failure
is only logged) and a `DATABASE_ERROR`-wrapped `APIError` is returned.
Returns the committed store as seen after the call, with the error. -/
def UpdateCheckbox (db : CheckboxDb) (o : TxOracle) (checkboxNbr : Int) (checked : Bool)
    (userUuid : String) (requestUuid : String) (now : Nat) : CheckboxDb × Option BaseError :=
  match o.beginErr with
  | some m =>
    (db, some (WrapWithCodeFromConstants m ErrDatabaseError "failed to begin transaction"))
  | none =>
    let tx := BeginTx
    match o.execStateErr with
    | some m =>
      (RollbackTx db tx,
        some (WrapWithCodeFromConstants m ErrDatabaseError "failed to update checkbox state"))
    | none =>
      let tx := execTxState tx checked checkboxNbr
      match o.execDetailsErr with
      | some m =>
        (RollbackTx db tx,
          some (WrapWithCodeFromConstants m ErrDatabaseError "failed to update checkbox details"))
      | none =>
        let tx := execTxDetails tx userUuid requestUuid now checkboxNbr
        match o.commitErr with
        | some m =>
          (RollbackTx db tx,
            some (WrapWithCodeFromConstants m ErrDatabaseError "failed to commit transaction"))
        | none => (CommitTx db tx, none)

/-- The committed store after both rows of `UpdateCheckbox` have been
applied: the state row and the details row of `checkboxNbr`, together. -/
def applyBothRows (db : CheckboxDb) (checkboxNbr : Int) (checked : Bool)
    (userUuid : String) (requestUuid : String) (now : Nat) : CheckboxDb :=
  updateDetailsRow (updateStateRow db checked checkboxNbr) userUuid requestUuid now checkboxNbr

/-- Oracle for the database interaction inside `GetFullCheckboxStore`:
the outcome of the `Query` call, the per-row results of `rows.Values()`
(in `CHECKBOX_NBR` order), and the final `rows.Err()` check. -/
structure FullStoreQuery where
  queryErr : Option String
  rows : List (Except String Bool)
  iterErr : Option String

/-- The `for rows.Next()` loop of `GetFullCheckboxStore`: writes each row's
value into `checkboxes[i]` and increments `i`. A row whose `Values()` call
fails returns a wrapped `DATABASE_ERROR`; writing past the end of the
destination slice panics (Go index out of range). -/
def getFullLoop (checkboxes : List Bool) (rows : List (Except String Bool)) (i : Nat) :
    GoOutcome (List Bool × Nat) :=
  match rows with
  | [] => .ok (checkboxes, i)
  | r :: rest =>
    match r with
    | .error m =>
      .err (WrapWithCodeFromConstants m ErrDatabaseError
        "failed to read value from result inside GetFullCheckboxStore")
    | .ok checked =>
      if i < checkboxes.length then getFullLoop (checkboxes.set i checked) rest (i + 1)
      else .panicked "index out of range"

/-- `GetFullCheckboxStore` from part_003: allocates `make([]bool, 1000000)`,
fills it from the query result, then rejects the read when the row count
`i` differs from 999999, and finally checks `rows.Err()`. -/
def GetFullCheckboxStore (q : FullStoreQuery) : GoOutcome (List Bool) :=
  let checkboxes := List.replicate 1000000 false
  match q.queryErr with
  | some m =>
    .err (WrapWithCodeFromConstants m ErrDatabaseError
      "failed to query checkbox status inside GetFullCheckboxStore")
  | none =>
    match getFullLoop checkboxes q.rows 0 with
    | .panicked m => .panicked m
    | .err e => .err e
    | .ok (filled, i) =>
      if i ≠ 999999 then
        .err (NewAPIErrorFromCode ErrDatabaseError
          s!"expected to get {(999999 : Nat)} checkboxes, got {i}")
      else
        match q.iterErr with
        | some m =>
          .err (WrapWithCodeFromConstants m ErrDatabaseError
            "rows iteration error inside GetFullCheckboxStore")
        | none => .ok filled

end dbservice

namespace memorystore

/-- `LoadCheckboxesFromStore` from part_005: fetches the full store from the
gateway; on error returns a wrapped `DATABASE_ERROR` and leaves the cache
state untouched, on success swaps the backing array in under the mutex
(note: `storeLen` is not updated). Result: the package state after the
call, with the returned error. -/
def LoadCheckboxesFromStore (s : MemoryStore) (q : dbservice.FullStoreQuery) :
    GoOutcome (MemoryStore × Option BaseError) :=
  match dbservice.GetFullCheckboxStore q with
  | .panicked m => .panicked m
  | .err e =>
    .ok (s, some (WrapWithCodeFromConstants e.message ErrDatabaseError
      "failed to get full checkbox store from database"))
  | .ok newMemoryStore => .ok ({ s with store := newMemoryStore }, none)

end memorystore

/-! ### Worker types (`internal/workers/worker.go`) and queue protocol
(`internal/queueservice`, src/unnamed/part_004) -/

namespace workers

/-- `workers.Result`. -/
inductive Result where
  | success
  | failure
  deriving DecidableEq

/-- `workers.QueueConsumerResult`. -/
structure QueueConsumerResult where
  result : Result
  numProcessed : Nat
  deriving DecidableEq

end workers

namespace queueservice

/-- `queueservice.MessageHeader` (part_004). -/
structure MessageHeader where
  payloadSchemaVersion : String
  groupId : String
  deduplicationId : String

/-- `queueservice.CheckboxActionPayload` (part_004). `RequestTime` is an
abstract timestamp. -/
structure CheckboxActionPayload where
  action : String
  checkboxNbr : Int
  userUuid : String
  requestUuid : String
  requestTime : Nat
  userIp : String
  apiServer : String

/-- `queueservice.CheckboxActionMessage` (part_004). -/
structure CheckboxActionMessage where
  header : MessageHeader
  payload : CheckboxActionPayload

/-- The action string a consumer compares against to decide the target
checked state (`payload.Action == queueservice.CheckboxActionChecked`).
The constant's defining file is not in the snapshot; the spec gives the
action set as `{check, uncheck}`. Its exact value does not affect any
claim. -/
def CheckboxActionChecked : String := "check"

end queueservice

/-! ### Queue consumer (`internal/workers/backend/backendworker.go`) -/

namespace backend

/-- Oracle for the fallible steps of `processCheckboxActionMessage` on one
received transport message: the outcome of `message.UnmarshalBody` (with the
decoded body when it succeeds), of the two `uuid.Parse` calls, of
`dbservice.UpdateCheckbox` and of `queueservice.DeleteMessage`. -/
structure MsgOracle where
  unmarshalErr : Option String
  body : queueservice.CheckboxActionMessage
  userUuidErr : Option String
  requestUuidErr : Option String
  updateErr : Option BaseError
  deleteErr : Option BaseError

/-- What one run of `processCheckboxActionMessage` did: whether
`dbservice.UpdateCheckbox` was invoked, whether the transport delete was
invoked, whether the message was actually removed from the queue, and the
result reported on the completion channel. -/
structure MsgTrace where
  updateCalled : Bool
  deleteCalled : Bool
  deleted : Bool
  sent : workers.Result
  deriving DecidableEq

/-- `processCheckboxActionMessage` from `backendworker.go`: unmarshal the
body, parse the user then the request UUID, call `UpdateCheckbox`, and only
on its success call `DeleteMessage`; every failure sends a failure result
on the channel and returns, leaving the message on the queue. -/
def processCheckboxActionMessage (o : MsgOracle) : MsgTrace :=
  match o.unmarshalErr with
  | some _ => { updateCalled := false, deleteCalled := false, deleted := false, sent := .failure }
  | none =>
    match o.userUuidErr with
    | some _ => { updateCalled := false, deleteCalled := false, deleted := false, sent := .failure }
    | none =>
      match o.requestUuidErr with
      | some _ => { updateCalled := false, deleteCalled := false, deleted := false, sent := .failure }
      | none =>
        match o.updateErr with
        | some _ => { updateCalled := true, deleteCalled := false, deleted := false, sent := .failure }
        | none =>
          match o.deleteErr with
          | some _ => { updateCalled := true, deleteCalled := true, deleted := false, sent := .failure }
          | none => { updateCalled := true, deleteCalled := true, deleted := true, sent := .success }

/-- One dispatched unit of work: the goroutine either panics somewhere in
`processCheckboxActionMessage` (`panics = true`) or runs it to completion
on its message oracle. -/
structure UnitOracle where
  panics : Bool
  msg : MsgOracle

/-- The result a dispatched unit reports on the completion channel: a panic
is recovered by the deferred `recover` and reported as a failure result. -/
def unitResult (u : UnitOracle) : workers.Result :=
  if u.panics then .failure else (processCheckboxActionMessage u.msg).sent

/-- The fan-in loop of `ConsumeCheckboxActionQueue`: receives one result per
dispatched message, counts `processed`/`failed`, and flips the overall
result to failure on any failed unit. -/
def collectLoop (results : List workers.Result) (processed : Nat) (failed : Nat)
    (result : workers.Result) : Nat × Nat × workers.Result :=
  match results with
  | [] => (processed, failed, result)
  | r :: rest =>
    if r = workers.Result.success then collectLoop rest (processed + 1) failed result
    else collectLoop rest processed (failed + 1) workers.Result.failure

/-- `ConsumeCheckboxActionQueue` from `backendworker.go`: pull a batch
(failure ends the cycle with `Failure, 0`), return `Success, 0` on an empty
batch, reject batches of more than 100 messages wholesale (`Failure, 0`,
nothing dispatched), otherwise dispatch one unit per message and collect
exactly one result per unit. Also returns the list of dispatched units
(empty when nothing was dispatched). -/
def ConsumeCheckboxActionQueue (pull : Except BaseError (List UnitOracle)) :
    workers.QueueConsumerResult × List UnitOracle :=
  match pull with
  | .error _ => ({ result := .failure, numProcessed := 0 }, [])
  | .ok messages =>
    if messages.length = 0 then ({ result := .success, numProcessed := 0 }, [])
    else if messages.length > 100 then ({ result := .failure, numProcessed := 0 }, [])
    else
      let collected := collectLoop (messages.map unitResult) 0 0 .success
      ({ result := collected.2.2, numProcessed := collected.1 }, messages)

end backend

/-! ### Backend poll loop (`cmd/backend/main.go`) -/

namespace backendmain

/-- `consumeCheckboxActionMinSleepTimeDuration = 5 * time.Second`, in
nanoseconds (`time.Duration`). -/
def consumeCheckboxActionMinSleepTimeDuration : Nat := 5 * 1000000000

/-- `sleepTimeMultiplier = 5`. -/
def sleepTimeMultiplier : Nat := 5

/-- `time.Second` in nanoseconds. -/
def timeSecond : Nat := 1000000000

/-- `int(math.Round(endtime.Sub(starttime).Seconds()))` for a non-negative
runtime given in nanoseconds: rounding half away from zero of `ns / 1e9`,
which for non-negative values is `(ns + 5e8) / 1e9` in integer division
(`Seconds()` is modelled exactly, as a rational). -/
def runtimeSecondsOf (runtimeNs : Nat) : Nat :=
  (runtimeNs + 500000000) / 1000000000

/-- The inter-cycle sleep computed by `main`:
`sleeptime := time.Duration(runtimeSeconds) * time.Second * sleepTimeMultiplier`,
raised to the minimum when below it. Value in nanoseconds. -/
def backendSleepNs (runtimeNs : Nat) : Nat :=
  let sleeptime := runtimeSecondsOf runtimeNs * timeSecond * sleepTimeMultiplier
  if sleeptime < consumeCheckboxActionMinSleepTimeDuration then
    consumeCheckboxActionMinSleepTimeDuration
  else sleeptime

/-- Modelled from the spec: the sleep the claim describes,
`max(minSleep, runtime × backoffMultiplier)` where `runtime` is the exact
measured duration of the just-completed cycle (in nanoseconds). Stated for
comparison with `backendSleepNs`, the sleep the code computes. -/
def claimedSleepNs (runtimeNs : Nat) : Nat :=
  max consumeCheckboxActionMinSleepTimeDuration (runtimeNs * sleepTimeMultiplier)

end backendmain

/-! ### Concrete fixtures used by witnesses and counterexamples -/

namespace backend

/-- A sample received message whose every processing step succeeds. -/
def sampleMsgOracle : MsgOracle :=
  { unmarshalErr := none
  , body :=
    { header := { payloadSchemaVersion := "1.0", groupId := "checkbox-42", deduplicationId := "r" }
    , payload :=
      { action := queueservice.CheckboxActionChecked, checkboxNbr := 42, userUuid := "u"
      , requestUuid := "r", requestTime := 0, userIp := "ip", apiServer := "api" } }
  , userUuidErr := none
  , requestUuidErr := none
  , updateErr := none
  , deleteErr := none }

/-- A unit of work that completes normally on `sampleMsgOracle`. -/
def sampleUnit : UnitOracle := { panics := false, msg := sampleMsgOracle }

/-- A unit of work that panics and is recovered. -/
def sampleUnitPanic : UnitOracle := { panics := true, msg := sampleMsgOracle }

/-- A unit of work whose user-UUID parse fails. -/
def sampleUnitBadUuid : UnitOracle :=
  { panics := false, msg := { sampleMsgOracle with userUuidErr := some "invalid UUID format" } }

end backend

namespace dbservice

/-- A full-store query that returns exactly 1,000,000 rows, all unchecked,
with no transport or iteration error. -/
def exactRowsQuery : FullStoreQuery :=
  { queryErr := none, rows := List.replicate 1000000 (Except.ok false), iterErr := none }

/-- A full-store query that returns only 999,999 rows (a truncated read),
with no transport or iteration error. -/
def shortRowsQuery : FullStoreQuery :=
  { queryErr := none, rows := List.replicate 999999 (Except.ok false), iterErr := none }

end dbservice

/-!
## Theorems

One theorem per claim of the specification, with helper lemmas shared
between them, witnesses for the theorems that carry hypotheses, and
counterexamples for the claims the code refutes.
-/

/-- C10: before `Init` has ever run, the recorded store length is 0, so the
bounds check rejects every index: both cache operations return an error
and never index the nil backing array or panic. -/
theorem uninitialized_cache_rejects_all (n : Int) (v : Bool) :
    (memorystore.GetCheckboxStatus memorystore.initialMemoryStore n).isMemErr = true ∧
    (memorystore.DoCheck memorystore.initialMemoryStore n v).isMemErr = true := by
  have h : memorystore.checkboxNbrValid memorystore.initialMemoryStore n = false := by
    simp only [memorystore.checkboxNbrValid, memorystore.initialMemoryStore,
      Bool.and_eq_false_iff, decide_eq_false_iff_not, not_le, not_lt]
    omega
  constructor <;>
    simp [memorystore.GetCheckboxStatus, memorystore.DoCheck, h, GoOutcome.isMemErr]

/-- C7 counterexample: a second `Init` on an initialized store panics; it
does not produce an `InternalError` `APIError` (there is no returned error
at all). -/
theorem init_twice_no_internal_error :
    GoOutcome.isInternalErrorOutcome (memorystore.Init memorystore.initializedStore) = false ∧
    memorystore.Init memorystore.initializedStore =
      .panicked "MemoryStore Init was called more than once" :=
  ⟨rfl, rfl⟩

/-- C7 (amended): calling `Init` on an already-initialized store fails fast
by panicking with "MemoryStore Init was called more than once", and in
particular never re-allocates the backing array (the panic outcome carries
no new state). -/
theorem init_twice_panics (s : memorystore.MemoryStore) (h : s.initialized = true) :
    memorystore.Init s = .panicked "MemoryStore Init was called more than once" := by
  simp [memorystore.Init, h]

/-- Witness for `init_twice_panics` at the freshly initialized store. -/
theorem init_twice_panics_witness :
    memorystore.initializedStore.initialized = true ∧
    memorystore.Init memorystore.initializedStore =
      .panicked "MemoryStore Init was called more than once" :=
  ⟨rfl, init_twice_panics memorystore.initializedStore rfl⟩

/-- C8 counterexample: on the out-of-range index -1, the cache read reports
the error built by `apierror.InternalError` — code `INTERNAL_SERVER_ERROR`,
HTTP 500 — which is not an InvalidArgument-class (validation) error. -/
theorem invalid_index_not_validation_class :
    GoOutcome.isValidationErrorOutcome
      (memorystore.GetCheckboxStatus memorystore.initializedStore (-1)) = false ∧
    memorystore.GetCheckboxStatus memorystore.initializedStore (-1) =
      .err (InternalError "invalid checkbox number for call GetCheckboxStatus(-1") := by
  constructor <;> rfl

/-- C8 (amended): for every out-of-range index (negative or at least N with
N = 1,000,000), both cache operations report the `InternalError`-class
error (`INTERNAL_SERVER_ERROR`) to the caller — a returned error, never a
panic. -/
theorem invalid_index_internal_error (s : memorystore.MemoryStore) (n : Int) (v : Bool)
    (hsl : s.storeLen = 1000000) (hrange : n < 0 ∨ 1000000 ≤ n) :
    GoOutcome.isInternalErrorOutcome (memorystore.GetCheckboxStatus s n) = true ∧
    GoOutcome.isInternalErrorOutcome (memorystore.DoCheck s n v) = true := by
  have h : memorystore.checkboxNbrValid s n = false := by
    simp only [memorystore.checkboxNbrValid, hsl, Bool.and_eq_false_iff,
      decide_eq_false_iff_not, not_le, not_lt]
    omega
  constructor <;>
    simp [memorystore.GetCheckboxStatus, memorystore.DoCheck, h,
      GoOutcome.isInternalErrorOutcome, InternalError, NewAPIErrorFromCode]

/-- Witness for `invalid_index_internal_error` at index -1. -/
theorem invalid_index_internal_error_witness :
    memorystore.initializedStore.storeLen = 1000000 ∧
    ((-1 : Int) < 0 ∨ 1000000 ≤ (-1 : Int)) ∧
    (GoOutcome.isInternalErrorOutcome
      (memorystore.GetCheckboxStatus memorystore.initializedStore (-1)) = true ∧
     GoOutcome.isInternalErrorOutcome
      (memorystore.DoCheck memorystore.initializedStore (-1) true) = true) :=
  ⟨rfl, Or.inl (by decide),
    invalid_index_internal_error memorystore.initializedStore (-1) true rfl
      (Or.inl (by decide))⟩

/-- C9 counterexample: for a cycle that measured 1.4 seconds, the code
sleeps 5 seconds (it first rounds the runtime to 1 whole second), while the
claimed `max(minSleep, runtime × backoffMultiplier)` over the exact
measured duration would be 7 seconds. -/
theorem backoff_rounding_counterexample :
    backendmain.backendSleepNs 1400000000 = 5000000000 ∧
    backendmain.claimedSleepNs 1400000000 = 7000000000 ∧
    (backendmain.backendSleepNs 1400000000 == backendmain.claimedSleepNs 1400000000) = false := by
  refine ⟨by decide, by decide, by decide⟩

/-- C9 (amended): after every cycle the loop sleeps for
`max(minSleep, round(runtime) × backoffMultiplier)`, where `round(runtime)`
is the measured cycle duration rounded to the nearest whole second
(`int(math.Round(runtime.Seconds()))`), minSleep is 5 s and the multiplier
is 5. -/
theorem backoff_is_max_of_rounded_runtime (runtimeNs : Nat) :
    backendmain.backendSleepNs runtimeNs =
      max backendmain.consumeCheckboxActionMinSleepTimeDuration
        (backendmain.runtimeSecondsOf runtimeNs * backendmain.timeSecond *
          backendmain.sleepTimeMultiplier) := by
  simp only [backendmain.backendSleepNs]
  rcases le_or_lt backendmain.consumeCheckboxActionMinSleepTimeDuration
      (backendmain.runtimeSecondsOf runtimeNs * backendmain.timeSecond *
        backendmain.sleepTimeMultiplier) with h | h
  · rw [if_neg (not_lt.mpr h), max_eq_right h]
  · rw [if_pos h, max_eq_left h.le]

/-- C5: the transport delete is invoked exactly when unmarshalling, both
UUID parses and the database update all succeeded (so only after
`updateCheckbox` returned success); on any earlier failure the message is
left undeleted, and the unit reports success on the completion channel only
when the message was actually deleted. -/
theorem process_message_delete_only_after_update (o : backend.MsgOracle) :
    (backend.processCheckboxActionMessage o).updateCalled =
      (o.unmarshalErr.isNone && o.userUuidErr.isNone && o.requestUuidErr.isNone) ∧
    (backend.processCheckboxActionMessage o).deleteCalled =
      ((backend.processCheckboxActionMessage o).updateCalled && o.updateErr.isNone) ∧
    (backend.processCheckboxActionMessage o).deleted =
      ((backend.processCheckboxActionMessage o).deleteCalled && o.deleteErr.isNone) ∧
    (backend.processCheckboxActionMessage o).sent =
      (if (backend.processCheckboxActionMessage o).deleted then workers.Result.success
       else workers.Result.failure) := by
  rcases o with ⟨u, b, p1, p2, upd, del⟩
  cases u <;> cases p1 <;> cases p2 <;> cases upd <;> cases del <;>
    simp [backend.processCheckboxActionMessage]

/-- C3: a pulled batch of more than 100 messages ends the cycle as a
failure with zero processed and dispatches none of the messages (the
dispatched-unit list is empty: nothing is deserialized, applied to the
database, or deleted). -/
theorem oversize_batch_rejected (ms : List backend.UnitOracle) (h : ms.length > 100) :
    backend.ConsumeCheckboxActionQueue (.ok ms) =
      ({ result := .failure, numProcessed := 0 }, []) := by
  have h0 : ¬(ms.length = 0) := by omega
  simp [backend.ConsumeCheckboxActionQueue, h0, h]

/-- Witness for `oversize_batch_rejected` on a 101-message batch. -/
theorem oversize_batch_rejected_witness :
    (List.replicate 101 backend.sampleUnit).length > 100 ∧
    backend.ConsumeCheckboxActionQueue (.ok (List.replicate 101 backend.sampleUnit)) =
      ({ result := .failure, numProcessed := 0 }, []) :=
  ⟨by simp, oversize_batch_rejected (List.replicate 101 backend.sampleUnit) (by simp)⟩

/-- The fan-in loop in closed form: it adds the number of successful
results to `processed`, the number of failed ones to `failed`, and the
overall result stays as passed in exactly when no result failed. -/
theorem collectLoop_eq (results : List workers.Result) (p f : Nat) (r : workers.Result) :
    backend.collectLoop results p f r =
      (p + results.countP (fun x => x == workers.Result.success),
       f + results.countP (fun x => x == workers.Result.failure),
       if results.countP (fun x => x == workers.Result.failure) = 0 then r
       else workers.Result.failure) := by
  induction results generalizing p f r with
  | nil => simp [backend.collectLoop]
  | cons a rest ih =>
    have hcons : backend.collectLoop (a :: rest) p f r =
        (if a = workers.Result.success then backend.collectLoop rest (p + 1) f r
         else backend.collectLoop rest p (f + 1) workers.Result.failure) := rfl
    cases a with
    | success =>
      have h1 : (workers.Result.success == workers.Result.success) = true := rfl
      have h2 : (workers.Result.success == workers.Result.failure) = false := rfl
      rw [hcons, if_pos rfl, ih]
      simp only [List.countP_cons, h1, h2, if_true, if_false, Nat.add_zero, Prod.mk.injEq]
      refine ⟨by omega, rfl, rfl⟩
    | failure =>
      have h1 : (workers.Result.failure == workers.Result.success) = false := rfl
      have h2 : (workers.Result.failure == workers.Result.failure) = true := rfl
      rw [hcons, if_neg (fun hx => workers.Result.noConfusion hx), ih]
      simp only [List.countP_cons, h1, h2, if_true, if_false, Nat.add_zero, Prod.mk.injEq]
      refine ⟨rfl, by omega, ?_⟩
      rw [ite_self, if_neg (by omega)]

/-- C4: for a received batch of at most 100 messages, the consumer
dispatches exactly the batch (one unit of work per message, a recovered
panic counting as a failed unit), returns `NumProcessed` equal to the
number of successful units, and reports overall success exactly when every
unit succeeded — in particular an empty batch yields success with zero
processed. -/
theorem batch_processed_counts (ms : List backend.UnitOracle) (h : ms.length ≤ 100) :
    (backend.ConsumeCheckboxActionQueue (.ok ms)).1.numProcessed =
      ms.countP (fun u => backend.unitResult u == workers.Result.success) ∧
    (backend.ConsumeCheckboxActionQueue (.ok ms)).1.result =
      (if ms.all (fun u => backend.unitResult u == workers.Result.success) then
        workers.Result.success
       else workers.Result.failure) ∧
    (backend.ConsumeCheckboxActionQueue (.ok ms)).2 = ms := by
  by_cases h0 : ms.length = 0
  · have hnil : ms = [] := List.length_eq_zero.mp h0
    subst hnil
    simp [backend.ConsumeCheckboxActionQueue]
  · have h1 : ¬(ms.length > 100) := by omega
    have hcount : (ms.map backend.unitResult).countP (fun x => x == workers.Result.failure) = 0
        ↔ ms.all (fun u => backend.unitResult u == workers.Result.success) = true := by
      rw [List.countP_eq_zero, List.all_eq_true]
      constructor
      · intro hz u hu
        have := hz (backend.unitResult u) (List.mem_map_of_mem _ hu)
        revert this
        cases backend.unitResult u <;> simp
      · intro ha x hx
        obtain ⟨u, hu, rfl⟩ := List.mem_map.mp hx
        have := ha u hu
        revert this
        cases backend.unitResult u <;> simp
    simp only [backend.ConsumeCheckboxActionQueue, if_neg h0, if_neg h1, collectLoop_eq,
      Nat.zero_add]
    refine ⟨?_, ?_, by trivial⟩
    · rw [List.countP_map]
      rfl
    · by_cases hall : ms.all (fun u => backend.unitResult u == workers.Result.success) = true
      · rw [if_pos (hcount.mpr hall), if_pos hall]
      · rw [if_neg (fun hz => hall (hcount.mp hz)), if_neg (by simp [hall])]

/-- Witness for `batch_processed_counts` on a three-message batch: one unit
succeeds, one panics (recovered as a failure), one fails its UUID parse. -/
theorem batch_processed_counts_witness :
    ([backend.sampleUnit, backend.sampleUnitPanic, backend.sampleUnitBadUuid].length ≤ 100) ∧
    ((backend.ConsumeCheckboxActionQueue
        (.ok [backend.sampleUnit, backend.sampleUnitPanic, backend.sampleUnitBadUuid])).1.numProcessed =
      [backend.sampleUnit, backend.sampleUnitPanic, backend.sampleUnitBadUuid].countP
        (fun u => backend.unitResult u == workers.Result.success) ∧
     (backend.ConsumeCheckboxActionQueue
        (.ok [backend.sampleUnit, backend.sampleUnitPanic, backend.sampleUnitBadUuid])).1.result =
      (if [backend.sampleUnit, backend.sampleUnitPanic, backend.sampleUnitBadUuid].all
          (fun u => backend.unitResult u == workers.Result.success) then
        workers.Result.success
       else workers.Result.failure) ∧
     (backend.ConsumeCheckboxActionQueue
        (.ok [backend.sampleUnit, backend.sampleUnitPanic, backend.sampleUnitBadUuid])).2 =
      [backend.sampleUnit, backend.sampleUnitPanic, backend.sampleUnitBadUuid]) :=
  ⟨by simp,
    batch_processed_counts [backend.sampleUnit, backend.sampleUnitPanic, backend.sampleUnitBadUuid]
      (by simp)⟩

/-- C2: every `UpdateCheckbox` call is atomic over the two rows — either it
returns no error, nothing failed, and the committed store carries both the
new state row and the new details row, or it returns a `DATABASE_ERROR`
and the committed store is exactly the one before the call (rolled back,
no partial application); and it succeeds exactly when none of begin, the
two row updates, and commit failed. -/
theorem updateCheckbox_atomic (db : dbservice.CheckboxDb) (o : dbservice.TxOracle)
    (checkboxNbr : Int) (checked : Bool) (userUuid requestUuid : String) (now : Nat) :
    ((dbservice.UpdateCheckbox db o checkboxNbr checked userUuid requestUuid now).2.isNone =
      (o.beginErr.isNone && o.execStateErr.isNone && o.execDetailsErr.isNone &&
        o.commitErr.isNone)) ∧
    (((dbservice.UpdateCheckbox db o checkboxNbr checked userUuid requestUuid now).2 = none ∧
      (dbservice.UpdateCheckbox db o checkboxNbr checked userUuid requestUuid now).1 =
        dbservice.applyBothRows db checkboxNbr checked userUuid requestUuid now) ∨
     ((dbservice.UpdateCheckbox db o checkboxNbr checked userUuid requestUuid now).2.map
        BaseError.code = some ErrDatabaseError ∧
      (dbservice.UpdateCheckbox db o checkboxNbr checked userUuid requestUuid now).1 = db)) := by
  rcases o with ⟨b, es, ed, cm, rb⟩
  cases b with
  | some m => exact ⟨rfl, Or.inr ⟨rfl, rfl⟩⟩
  | none =>
    cases es with
    | some m => exact ⟨rfl, Or.inr ⟨rfl, rfl⟩⟩
    | none =>
      cases ed with
      | some m => exact ⟨rfl, Or.inr ⟨rfl, rfl⟩⟩
      | none =>
        cases cm with
        | some m => exact ⟨rfl, Or.inr ⟨rfl, rfl⟩⟩
        | none => exact ⟨rfl, Or.inl ⟨rfl, rfl⟩⟩

/-- A `DoCheck` on an index other than `n` (whether it succeeds, fails
validation, or would panic) leaves the recorded store length and the cached
value at `n` untouched. -/
theorem doCheckState_preserves (t : memorystore.MemoryStore) (m : Int) (w : Bool) (n : Int)
    (hn : 0 ≤ n) (hmn : m ≠ n) :
    (memorystore.doCheckState t m w).storeLen = t.storeLen ∧
    (memorystore.doCheckState t m w).store[n.toNat]? = t.store[n.toNat]? := by
  unfold memorystore.doCheckState memorystore.DoCheck memorystore.sliceSet
  by_cases hv : memorystore.checkboxNbrValid t m
  · by_cases hb : 0 ≤ m ∧ m.toNat < t.store.length
    · have hne : m.toNat ≠ n.toNat := by omega
      simp [hv, hb, List.getElem?_set_ne hne]
    · simp [hv, hb]
  · simp [hv]

/-- A sequence of `DoCheck` calls that never targets index `n` preserves
the recorded store length and the cached value at `n`. -/
theorem applyWrites_preserves (ws : List (Int × Bool)) :
    ∀ (t : memorystore.MemoryStore) (n : Int), 0 ≤ n →
      ws.all (fun p => p.1 != n) = true →
      (memorystore.applyWrites t ws).storeLen = t.storeLen ∧
      (memorystore.applyWrites t ws).store[n.toNat]? = t.store[n.toNat]? := by
  induction ws with
  | nil => intro t n _ _; exact ⟨rfl, rfl⟩
  | cons p rest ih =>
    intro t n hn hws
    rw [List.all_cons, Bool.and_eq_true] at hws
    have hmn : p.1 ≠ n := by simpa using hws.1
    have h1 := doCheckState_preserves t p.1 p.2 n hn hmn
    have h2 := ih (memorystore.doCheckState t p.1 p.2) n hn hws.2
    have hstep : memorystore.applyWrites t (p :: rest) =
        memorystore.applyWrites (memorystore.doCheckState t p.1 p.2) rest := rfl
    rw [hstep]
    exact ⟨h2.1.trans h1.1, h2.2.trans h1.2⟩

/-- C6: for every valid index `n` in `[0, N)` with N = 1,000,000, on a cache
whose backing array has been allocated (length N, recorded length N), a
write `DoCheck(n, v)` succeeds, and after any further writes that do not
target `n`, the read `GetCheckboxStatus(n)` returns `v` with no error. -/
theorem cache_read_after_write (s : memorystore.MemoryStore) (n : Int) (v : Bool)
    (ws : List (Int × Bool))
    (hlen : s.store.length = 1000000) (hsl : s.storeLen = 1000000)
    (hn0 : 0 ≤ n) (hnN : n < 1000000)
    (hws : ws.all (fun p => p.1 != n) = true) :
    memorystore.DoCheck s n v = .ok (memorystore.doCheckState s n v) ∧
    memorystore.GetCheckboxStatus (memorystore.applyWrites (memorystore.doCheckState s n v) ws) n
      = .ok v := by
  have hvalid : memorystore.checkboxNbrValid s n = true := by
    simp only [memorystore.checkboxNbrValid, hsl, Bool.and_eq_true, decide_eq_true_eq]
    omega
  have hb : 0 ≤ n ∧ n.toNat < s.store.length := ⟨hn0, by omega⟩
  have hdo : memorystore.DoCheck s n v = .ok { s with store := s.store.set n.toNat v } := by
    simp [memorystore.DoCheck, hvalid, memorystore.sliceSet, hb]
  have hstate : memorystore.doCheckState s n v = { s with store := s.store.set n.toNat v } := by
    simp [memorystore.doCheckState, hdo]
  refine ⟨hdo.trans (by rw [hstate]), ?_⟩
  have hp := applyWrites_preserves ws (memorystore.doCheckState s n v) n hn0 hws
  have hsl2 : (memorystore.applyWrites (memorystore.doCheckState s n v) ws).storeLen
      = 1000000 := by
    rw [hp.1, hstate]
    exact hsl
  have hv2 : memorystore.checkboxNbrValid
      (memorystore.applyWrites (memorystore.doCheckState s n v) ws) n = true := by
    simp only [memorystore.checkboxNbrValid, hsl2, Bool.and_eq_true, decide_eq_true_eq]
    omega
  have hget : (memorystore.applyWrites (memorystore.doCheckState s n v) ws).store[n.toNat]? =
      some v := by
    rw [hp.2, hstate]
    exact List.getElem?_set_self (by omega)
  simp [memorystore.GetCheckboxStatus, hv2, memorystore.sliceGet, hn0, hget]

/-- Witness for `cache_read_after_write`: on the freshly initialized store,
check box 5, then uncheck box 7; reading box 5 still returns `true`. -/
theorem cache_read_after_write_witness :
    memorystore.initializedStore.store.length = 1000000 ∧
    memorystore.initializedStore.storeLen = 1000000 ∧
    (0 : Int) ≤ 5 ∧ (5 : Int) < 1000000 ∧
    ([((7 : Int), false)].all (fun p => p.1 != (5 : Int)) = true) ∧
    (memorystore.DoCheck memorystore.initializedStore 5 true =
      .ok (memorystore.doCheckState memorystore.initializedStore 5 true) ∧
     memorystore.GetCheckboxStatus
      (memorystore.applyWrites (memorystore.doCheckState memorystore.initializedStore 5 true)
        [((7 : Int), false)]) 5 = .ok true) :=
  ⟨List.length_replicate 1000000 false, rfl, by decide, by decide, by decide,
    cache_read_after_write memorystore.initializedStore 5 true [((7 : Int), false)]
      (List.length_replicate 1000000 false) rfl (by decide) (by decide) (by decide)⟩

/-- The row-filling loop of `GetFullCheckboxStore` on an all-successful row
stream that fits in the destination: it completes normally and advances the
row counter by the number of rows. -/
theorem getFullLoop_all_ok (rows : List (Except String Bool)) :
    ∀ (dest : List Bool) (i : Nat), (∀ r ∈ rows, r = Except.ok false) →
      i + rows.length ≤ dest.length →
      ∃ filled, dbservice.getFullLoop dest rows i = .ok (filled, i + rows.length) := by
  induction rows with
  | nil => intro dest i _ _; exact ⟨dest, by simp [dbservice.getFullLoop]⟩
  | cons r rest ih =>
    intro dest i hall hle
    have hr : r = Except.ok false := hall r (List.mem_cons_self r rest)
    subst hr
    have hlen : (Except.ok (ε := String) false :: rest).length = rest.length + 1 := rfl
    have hi : i < dest.length := by rw [hlen] at hle; omega
    obtain ⟨filled, hf⟩ := ih (dest.set i false) (i + 1)
      (fun x hx => hall x (List.mem_cons_of_mem _ hx))
      (by rw [List.length_set]; rw [hlen] at hle; omega)
    refine ⟨filled, ?_⟩
    have hstep : dbservice.getFullLoop dest (Except.ok false :: rest) i =
        (if i < dest.length then dbservice.getFullLoop (dest.set i false) rest (i + 1)
         else .panicked "index out of range") := rfl
    rw [hstep, if_pos hi, hf, hlen]
    have : i + 1 + rest.length = i + (rest.length + 1) := by omega
    rw [this]

/-- `GetFullCheckboxStore` when the query succeeded and the filling loop
completed with row counter `i`: what remains is the row-count check and the
final `rows.Err()` check. -/
theorem getFullCheckboxStore_of_loop (q : dbservice.FullStoreQuery) (filled : List Bool)
    (i : Nat) (hq : q.queryErr = none)
    (hl : dbservice.getFullLoop (List.replicate 1000000 false) q.rows 0 = .ok (filled, i)) :
    dbservice.GetFullCheckboxStore q =
      (if i ≠ 999999 then
        .err (NewAPIErrorFromCode ErrDatabaseError
          s!"expected to get {(999999 : Nat)} checkboxes, got {i}")
       else
        match q.iterErr with
        | some m =>
          .err (WrapWithCodeFromConstants m ErrDatabaseError
            "rows iteration error inside GetFullCheckboxStore")
        | none => .ok filled) := by
  simp only [dbservice.GetFullCheckboxStore, hq, hl]

/-- `LoadCheckboxesFromStore` when the gateway read failed: the error is
wrapped as a `DATABASE_ERROR` and the cache state is returned unchanged. -/
theorem loadCheckboxes_of_err (s : memorystore.MemoryStore) (q : dbservice.FullStoreQuery)
    (e : BaseError) (h : dbservice.GetFullCheckboxStore q = .err e) :
    memorystore.LoadCheckboxesFromStore s q =
      .ok (s, some (WrapWithCodeFromConstants e.message ErrDatabaseError
        "failed to get full checkbox store from database")) := by
  unfold memorystore.LoadCheckboxesFromStore
  rw [h]

/-- C1 (code bug): the bulk read rejects a result of exactly N = 1,000,000
rows — it demands 999,999 (`if i != 999999`), contradicting its own
comment — returning a `DATABASE_ERROR`; a truncated 999,999-row read is
accepted. On the erroneous exact-N read, `LoadCheckboxesFromStore` returns
the wrapped error and leaves the existing cache state unchanged. -/
theorem getFullStore_row_count_bug (s : memorystore.MemoryStore) :
    dbservice.GetFullCheckboxStore dbservice.exactRowsQuery =
      .err (NewAPIErrorFromCode ErrDatabaseError
        "expected to get 999999 checkboxes, got 1000000") ∧
    (∃ filled, dbservice.GetFullCheckboxStore dbservice.shortRowsQuery = .ok filled) ∧
    memorystore.LoadCheckboxesFromStore s dbservice.exactRowsQuery =
      .ok (s, some (WrapWithCodeFromConstants
        "expected to get 999999 checkboxes, got 1000000" ErrDatabaseError
        "failed to get full checkbox store from database")) := by
  obtain ⟨filled, hf⟩ := getFullLoop_all_ok (List.replicate 1000000 (Except.ok false))
    (List.replicate 1000000 false) 0 (fun r hr => List.eq_of_mem_replicate hr)
    (by rw [List.length_replicate, List.length_replicate])
  obtain ⟨filled2, hf2⟩ := getFullLoop_all_ok (List.replicate 999999 (Except.ok false))
    (List.replicate 1000000 false) 0 (fun r hr => List.eq_of_mem_replicate hr)
    (by rw [List.length_replicate, List.length_replicate]; omega)
  rw [List.length_replicate, Nat.zero_add] at hf hf2
  have hexact : dbservice.GetFullCheckboxStore dbservice.exactRowsQuery =
      .err (NewAPIErrorFromCode ErrDatabaseError
        "expected to get 999999 checkboxes, got 1000000") := by
    rw [getFullCheckboxStore_of_loop dbservice.exactRowsQuery filled 1000000 rfl hf]
    rfl
  have hshort : dbservice.GetFullCheckboxStore dbservice.shortRowsQuery = .ok filled2 := by
    rw [getFullCheckboxStore_of_loop dbservice.shortRowsQuery filled2 999999 rfl hf2]
    rfl
  exact ⟨hexact, ⟨filled2, hshort⟩,
    loadCheckboxes_of_err s dbservice.exactRowsQuery _ hexact⟩

end MCB
